import Mathlib

set_option maxHeartbeats 1000000
set_option maxRecDepth 10000

/-!
Verification of the workflow graph execution engine of the
strands visual builder samples.  The definitions below are a shallow
embedding of the Python sources:

* agentic-samples/strands-builder-ui/mcp_helpers.py
  (parse_config, locate_config, _recover_json)
* agentic-samples/strands-agents-visual-builder/workflow_runner.py
  (_processing_thread, create_nodes, create_agent, create_tool,
   _create_tool_instance_from_data, _create_orchestrator,
   _generate_workflow_prompt)

Python/JSON values are modelled by the inductive type PyVal, with
dictionaries as insertion-ordered association lists and floats as
rationals.  Python exceptions are modelled with Except; a try/except
block becomes a match on the Except value.  External effects (the MCP
client subprocess, the LLM invocation, timestamps, the model catalog)
are oracles passed in as explicit function parameters.
-/

/-- Python/JSON-like values: None, bool, int, float (as a rational),
str, list, and dict (insertion-ordered association list). -/
inductive PyVal : Type where
  | null : PyVal
  | bool : Bool → PyVal
  | int : Int → PyVal
  | float : ℚ → PyVal
  | str : String → PyVal
  | list : List PyVal → PyVal
  | dict : List (String × PyVal) → PyVal

mutual

/-- Structural (Lean-level) boolean equality on PyVal. -/
def pvBeq : PyVal → PyVal → Bool
  | .null, .null => true
  | .bool a, .bool b => a == b
  | .int a, .int b => a == b
  | .float a, .float b => a == b
  | .str a, .str b => a == b
  | .list a, .list b => pvBeqList a b
  | .dict a, .dict b => pvBeqDict a b
  | _, _ => false

def pvBeqList : List PyVal → List PyVal → Bool
  | [], [] => true
  | a :: as, b :: bs => pvBeq a b && pvBeqList as bs
  | _, _ => false

def pvBeqDict : List (String × PyVal) → List (String × PyVal) → Bool
  | [], [] => true
  | (k, v) :: as, (k2, v2) :: bs => k == k2 && pvBeq v v2 && pvBeqDict as bs
  | _, _ => false

end

mutual

theorem pvBeq_iff : ∀ (a b : PyVal), (pvBeq a b = true) ↔ a = b
  | .null, b => by cases b <;> simp [pvBeq]
  | .bool x, b => by cases b <;> simp [pvBeq]
  | .int x, b => by cases b <;> simp [pvBeq]
  | .float x, b => by cases b <;> simp [pvBeq]
  | .str x, b => by cases b <;> simp [pvBeq]
  | .list xs, b => by
      cases b <;> simp [pvBeq]
      exact pvBeqList_iff xs _
  | .dict kvs, b => by
      cases b <;> simp [pvBeq]
      exact pvBeqDict_iff kvs _

theorem pvBeqList_iff : ∀ (a b : List PyVal), (pvBeqList a b = true) ↔ a = b
  | [], b => by cases b <;> simp [pvBeqList]
  | x :: xs, [] => by simp [pvBeqList]
  | x :: xs, y :: ys => by
      simp [pvBeqList, pvBeq_iff x y, pvBeqList_iff xs ys]

theorem pvBeqDict_iff :
    ∀ (a b : List (String × PyVal)), (pvBeqDict a b = true) ↔ a = b
  | [], b => by cases b <;> simp [pvBeqDict]
  | x :: xs, [] => by simp [pvBeqDict]
  | (k, v) :: xs, (k2, v2) :: ys => by
      simp [pvBeqDict, pvBeq_iff v v2, pvBeqDict_iff xs ys, and_assoc]

end

instance : DecidableEq PyVal := fun a b => decidable_of_iff _ (pvBeq_iff a b)

/-- Is the value a dictionary (a key-to-value mapping). -/
def isDictB : PyVal → Bool
  | .dict _ => true
  | _ => false

/-- Python truthiness of a value. -/
def truthy : PyVal → Bool
  | .null => false
  | .bool b => b
  | .int n => n != 0
  | .float q => q != 0
  | .str s => s != ""
  | .list xs => !xs.isEmpty
  | .dict kvs => !kvs.isEmpty

/-- Lookup in an insertion-ordered dictionary (first occurrence of the key). -/
def dictGet (kvs : List (String × PyVal)) (k : String) : Option PyVal :=
  match kvs.find? (fun p => p.1 == k) with
  | some p => some p.2
  | none => none

mutual

/-- mcp_helpers.locate_config: find MCP launch parameters in a nested
configuration value.  Returns (command, args, env, disabled_tools), with
Python None (PyVal.null) components when nothing is found.  A nested
result is only accepted when its command component is truthy. -/
def locate_config : PyVal → PyVal × PyVal × PyVal × PyVal
  | .dict kvs =>
    match dictGet kvs "command" with
    | some c =>
      (c, (dictGet kvs "args").getD (.list []),
          (dictGet kvs "env").getD (.dict []),
          (dictGet kvs "disabled_tools").getD (.list []))
    | none => locateLoop kvs
  | _ => (.null, .null, .null, .null)

/-- The for-loop of locate_config over the items of the dictionary. -/
def locateLoop : List (String × PyVal) → PyVal × PyVal × PyVal × PyVal
  | [] => (.null, .null, .null, .null)
  | (_, v) :: rest =>
    match v with
    | .dict kvs =>
      let r := locate_config (.dict kvs)
      if truthy r.1 then r else locateLoop rest
    | _ => locateLoop rest

end

mutual

/-- Reference predicate taken from the specification text: the value is a
mapping that contains a command key at the top level or inside some
nested sub-mapping at any depth. -/
def specHasCommandAtAnyDepth : PyVal → Bool
  | .dict kvs => (dictGet kvs "command").isSome || specHasCommandLoop kvs
  | _ => false

def specHasCommandLoop : List (String × PyVal) → Bool
  | [] => false
  | (_, v) :: rest => specHasCommandAtAnyDepth v || specHasCommandLoop rest

end

example :
    locate_config (.dict [("a", .dict [("command", .str "")])]) =
      (.null, .null, .null, .null) := by decide

example :
    locate_config (.dict [("command", .str "run")]) =
      (.str "run", .list [], .dict [], .list []) := by decide

/-- The opening curly brace character. -/
def lbrace : Char := Char.ofNat 123

/-- The closing curly brace character. -/
def rbrace : Char := Char.ofNat 125

/-- JSON whitespace (the characters json.loads skips between tokens). -/
def jsonWsChar (c : Char) : Bool := c == ' ' || c == '\t' || c == '\n' || c == '\r'

/-- Drop leading JSON whitespace. -/
def skipJsonWs : List Char → List Char
  | [] => []
  | c :: cs => if jsonWsChar c then skipJsonWs cs else c :: cs

/-- Value of a hexadecimal digit. -/
def hexVal (c : Char) : Option Nat :=
  if '0' ≤ c ∧ c ≤ '9' then some (c.toNat - 48)
  else if 'a' ≤ c ∧ c ≤ 'f' then some (c.toNat - 87)
  else if 'A' ≤ c ∧ c ≤ 'F' then some (c.toNat - 55)
  else none

/-- Body of a JSON string after the opening quote: returns the decoded
characters and the input remaining after the closing quote. -/
def jsonStringBody : List Char → Except String (List Char × List Char)
  | [] => .error "unterminated string"
  | c :: cs =>
    if c == '"' then .ok ([], cs)
    else if c == '\\' then
      match cs with
      | [] => .error "unterminated escape"
      | 'u' :: h1 :: h2 :: h3 :: h4 :: cs2 =>
        match hexVal h1, hexVal h2, hexVal h3, hexVal h4 with
        | some a, some b, some c3, some d =>
          (jsonStringBody cs2).map
            (fun p => (Char.ofNat (((a * 16 + b) * 16 + c3) * 16 + d) :: p.1, p.2))
        | _, _, _, _ => .error "invalid unicode escape"
      | e :: cs2 =>
        let esc : Option Char :=
          if e == '"' then some '"'
          else if e == '\\' then some '\\'
          else if e == '/' then some '/'
          else if e == 'n' then some '\n'
          else if e == 't' then some '\t'
          else if e == 'r' then some '\r'
          else if e == 'b' then some (Char.ofNat 8)
          else if e == 'f' then some (Char.ofNat 12)
          else none
        match esc with
        | some ch => (jsonStringBody cs2).map (fun p => (ch :: p.1, p.2))
        | none => .error "invalid escape"
    else if c.toNat < 32 then .error "control character in string"
    else (jsonStringBody cs).map (fun p => (c :: p.1, p.2))

/-- ASCII decimal digit test. -/
def digitChar (c : Char) : Bool := '0' ≤ c && c ≤ '9'

/-- Decimal value of a digit sequence. -/
def digitsToNat (ds : List Char) : Nat :=
  ds.foldl (fun a c => a * 10 + (c.toNat - 48)) 0

/-- Parse a JSON number (int or float) at the start of the input. -/
def parseJsonNumber (cs : List Char) : Except String (PyVal × List Char) :=
  let (neg, cs1) :=
    match cs with
    | '-' :: r => (true, r)
    | _ => (false, cs)
  let ds := cs1.takeWhile digitChar
  let r1 := cs1.dropWhile digitChar
  if ds.isEmpty then .error "bad number"
  else if ds.length > 1 && ds.headD '0' == '0' then .error "bad number"
  else
    let ip : Nat := digitsToNat ds
    let (hasFrac, fds, r2) :=
      match r1 with
      | '.' :: r => (true, r.takeWhile digitChar, r.dropWhile digitChar)
      | _ => (false, [], r1)
    if hasFrac && fds.isEmpty then .error "bad number"
    else
      let (hasExp, eneg, eds, r3) :=
        match r2 with
        | 'e' :: '+' :: r => (true, false, r.takeWhile digitChar, r.dropWhile digitChar)
        | 'e' :: '-' :: r => (true, true, r.takeWhile digitChar, r.dropWhile digitChar)
        | 'e' :: r => (true, false, r.takeWhile digitChar, r.dropWhile digitChar)
        | 'E' :: '+' :: r => (true, false, r.takeWhile digitChar, r.dropWhile digitChar)
        | 'E' :: '-' :: r => (true, true, r.takeWhile digitChar, r.dropWhile digitChar)
        | 'E' :: r => (true, false, r.takeWhile digitChar, r.dropWhile digitChar)
        | _ => (false, false, [], r2)
      if hasExp && eds.isEmpty then .error "bad number"
      else if !hasFrac && !hasExp then
        .ok (.int (if neg then -(ip : Int) else (ip : Int)), r1)
      else
        let mant : ℚ := (ip : ℚ) + (digitsToNat fds : ℚ) / ((10 : ℚ) ^ fds.length)
        let ev : ℤ := if eneg then -(digitsToNat eds : ℤ) else (digitsToNat eds : ℤ)
        let q : ℚ := (if neg then -mant else mant) * (10 : ℚ) ^ ev
        .ok (.float q, r3)

/-- Insert into an insertion-ordered dictionary: an existing key keeps its
position and gets the new value, a new key is appended. -/
def dinsert (kvs : List (String × PyVal)) (k : String) (v : PyVal) :
    List (String × PyVal) :=
  match kvs with
  | [] => [(k, v)]
  | (k0, v0) :: rest => if k0 == k then (k0, v) :: rest else (k0, v0) :: dinsert rest k v

mutual

/-- Recursive-descent JSON value (model of json.loads); fuel decreases on
every recursive call and is chosen large enough at the top entry. -/
def parseJsonValue : Nat → List Char → Except String (PyVal × List Char)
  | 0, _ => .error "out of fuel"
  | fuel + 1, cs =>
    match skipJsonWs cs with
    | [] => .error "unexpected end of input"
    | c :: cs1 =>
      if c == lbrace then parseJsonObject fuel (skipJsonWs cs1) []
      else if c == '[' then parseJsonArray fuel (skipJsonWs cs1) []
      else if c == '"' then
        match jsonStringBody cs1 with
        | .ok p => .ok (.str ⟨p.1⟩, p.2)
        | .error e => .error e
      else if c == 't' then
        match cs1 with
        | 'r' :: 'u' :: 'e' :: r => .ok (.bool true, r)
        | _ => .error "bad literal"
      else if c == 'f' then
        match cs1 with
        | 'a' :: 'l' :: 's' :: 'e' :: r => .ok (.bool false, r)
        | _ => .error "bad literal"
      else if c == 'n' then
        match cs1 with
        | 'u' :: 'l' :: 'l' :: r => .ok (.null, r)
        | _ => .error "bad literal"
      else if c == '-' || digitChar c then parseJsonNumber (c :: cs1)
      else .error "unexpected character"

/-- Members of a JSON object, entered just after the opening brace with
whitespace skipped. -/
def parseJsonObject :
    Nat → List Char → List (String × PyVal) → Except String (PyVal × List Char)
  | 0, _, _ => .error "out of fuel"
  | fuel + 1, cs, acc =>
    match cs with
    | [] => .error "unterminated object"
    | c :: cs1 =>
      if c == rbrace && acc.isEmpty then .ok (.dict [], cs1)
      else if c == '"' then
        match jsonStringBody cs1 with
        | .error e => .error e
        | .ok (kbody, r1) =>
          match skipJsonWs r1 with
          | ':' :: r2 =>
            match parseJsonValue fuel r2 with
            | .error e => .error e
            | .ok (v, r3) =>
              let acc2 := dinsert acc ⟨kbody⟩ v
              match skipJsonWs r3 with
              | ',' :: r4 => parseJsonObject fuel (skipJsonWs r4) acc2
              | c2 :: r4 =>
                if c2 == rbrace then .ok (.dict acc2, r4) else .error "bad object"
              | [] => .error "unterminated object"
          | _ => .error "expected colon"
      else .error "expected property name"

/-- Elements of a JSON array, entered just after the opening bracket with
whitespace skipped. -/
def parseJsonArray :
    Nat → List Char → List PyVal → Except String (PyVal × List Char)
  | 0, _, _ => .error "out of fuel"
  | fuel + 1, cs, acc =>
    match cs with
    | [] => .error "unterminated array"
    | c :: _ =>
      if c == ']' && acc.isEmpty then .ok (.list [], cs.tail)
      else
        match parseJsonValue fuel cs with
        | .error e => .error e
        | .ok (v, r1) =>
          match skipJsonWs r1 with
          | ',' :: r2 => parseJsonArray fuel r2 (acc ++ [v])
          | c2 :: r2 =>
            if c2 == ']' then .ok (.list (acc ++ [v]), r2) else .error "bad array"
          | [] => .error "unterminated array"

end

/-- json.loads on a character list: parse one value and require that only
whitespace remains. -/
def json_loads_chars (cs : List Char) : Except String PyVal :=
  match parseJsonValue (2 * cs.length + 8) cs with
  | .error e => .error e
  | .ok (v, rest) =>
    match skipJsonWs rest with
    | [] => .ok v
    | _ => .error "extra data"

/-- Model of Python json.loads on a string. -/
def json_loads (s : String) : Except String PyVal := json_loads_chars s.data

instance {ε α : Type} [DecidableEq ε] [DecidableEq α] : DecidableEq (Except ε α) := fun
  | .ok a, .ok b =>
      if h : a = b then isTrue (by rw [h])
      else isFalse (by intro hh; cases hh; exact h rfl)
  | .ok _, .error _ => isFalse (by intro h; cases h)
  | .error _, .ok _ => isFalse (by intro h; cases h)
  | .error e, .error f =>
      if h : e = f then isTrue (by rw [h])
      else isFalse (by intro hh; cases hh; exact h rfl)

example : json_loads "[1, 2]" = .ok (.list [.int 1, .int 2]) := by decide

example : json_loads "\x7b\"a\": 1\x7d" = .ok (.dict [("a", .int 1)]) := by decide

example : json_loads "\x7b\"a\": \x7b\"b\": true\x7d, \"c\": null\x7d" =
    .ok (.dict [("a", .dict [("b", .bool true)]), ("c", .null)]) := by decide

example : (json_loads "\x7b\"a\": 1,\x7d").isOk = false := by decide

/-- Python regex whitespace class over ASCII text. -/
def pyWsChar (c : Char) : Bool :=
  c == ' ' || c == '\t' || c == '\n' || c == '\r' || c == Char.ofNat 11 || c == Char.ofNat 12

/-- Character class of a bare identifier key in the recovery regexes. -/
def identChar (c : Char) : Bool := c.isAlphanum || c == '_'

/-- Left-to-right nonoverlapping substitution of a comma followed by
whitespace and a closing delimiter by the delimiter alone.  Fuel is one
more than the input length, which always suffices. -/
def subCommaCloseF (close : Char) : Nat → List Char → List Char
  | 0, l => l
  | _ + 1, [] => []
  | fuel + 1, c :: rest =>
    if c == ',' then
      match rest.dropWhile pyWsChar with
      | d :: r2 =>
        if d == close then close :: subCommaCloseF close fuel r2
        else c :: subCommaCloseF close fuel rest
      | [] => c :: subCommaCloseF close fuel rest
    else c :: subCommaCloseF close fuel rest

/-- Substitution step fixing trailing separators before a closer. -/
def subCommaClose (close : Char) (l : List Char) : List Char :=
  subCommaCloseF close (l.length + 1) l

/-- Left-to-right substitution quoting a bare identifier key that follows
an opening brace or a comma and is followed by a colon. -/
def subQuoteKeysF : Nat → List Char → List Char
  | 0, l => l
  | _ + 1, [] => []
  | fuel + 1, c :: rest =>
    if c == lbrace || c == ',' then
      let r1 := rest.dropWhile pyWsChar
      let id := r1.takeWhile identChar
      let r2 := r1.dropWhile identChar
      match id, r2.dropWhile pyWsChar with
      | _ :: _, ':' :: r4 =>
          c :: '"' :: (id ++ '"' :: ':' :: subQuoteKeysF fuel r4)
      | _, _ => c :: subQuoteKeysF fuel rest
    else c :: subQuoteKeysF fuel rest

/-- Substitution step quoting bare identifier keys. -/
def subQuoteKeys (l : List Char) : List Char := subQuoteKeysF (l.length + 1) l

/-- Scanner for the quoted string pair pattern of recovery strategy 2:
key in quotes, optional whitespace, colon, optional whitespace, value in
quotes.  Returns the matches in scan order. -/
def findStringPairsF : Nat → List Char → List (String × String)
  | 0, _ => []
  | _ + 1, [] => []
  | fuel + 1, c :: rest =>
    if c == '"' then
      let k := rest.takeWhile (fun x => x != '"')
      match k, rest.dropWhile (fun x => x != '"') with
      | _ :: _, '"' :: r2 =>
        match r2.dropWhile pyWsChar with
        | ':' :: r4 =>
          match r4.dropWhile pyWsChar with
          | '"' :: r6 =>
            let v := r6.takeWhile (fun x => x != '"')
            match r6.dropWhile (fun x => x != '"') with
            | '"' :: r8 => (⟨k⟩, ⟨v⟩) :: findStringPairsF fuel r8
            | _ => findStringPairsF fuel rest
          | _ => findStringPairsF fuel rest
        | _ => findStringPairsF fuel rest
      | _, _ => findStringPairsF fuel rest
    else findStringPairsF fuel rest

/-- Scan a numeric lexeme: optional minus, digits, optional fraction. -/
def scanNumLexeme (cs : List Char) : Option (List Char × List Char) :=
  let (neg, cs1) :=
    match cs with
    | '-' :: r => (true, r)
    | _ => (false, cs)
  let ds := cs1.takeWhile digitChar
  let r1 := cs1.dropWhile digitChar
  if ds.isEmpty then none
  else
    let sign : List Char := if neg then ['-'] else []
    match r1 with
    | '.' :: r2 =>
      let fs := r2.takeWhile digitChar
      if fs.isEmpty then some (sign ++ ds, r1)
      else some (sign ++ ds ++ '.' :: fs, r2.dropWhile digitChar)
    | _ => some (sign ++ ds, r1)

/-- Scanner for the quoted-key numeric value pattern of strategy 2. -/
def findNumPairsF : Nat → List Char → List (String × String)
  | 0, _ => []
  | _ + 1, [] => []
  | fuel + 1, c :: rest =>
    if c == '"' then
      let k := rest.takeWhile (fun x => x != '"')
      match k, rest.dropWhile (fun x => x != '"') with
      | _ :: _, '"' :: r2 =>
        match r2.dropWhile pyWsChar with
        | ':' :: r4 =>
          match scanNumLexeme (r4.dropWhile pyWsChar) with
          | some (lex, r6) => (⟨k⟩, ⟨lex⟩) :: findNumPairsF fuel r6
          | none => findNumPairsF fuel rest
        | _ => findNumPairsF fuel rest
      | _, _ => findNumPairsF fuel rest
    else findNumPairsF fuel rest

/-- Scanner for the quoted-key boolean value pattern of strategy 2. -/
def findBoolPairsF : Nat → List Char → List (String × String)
  | 0, _ => []
  | _ + 1, [] => []
  | fuel + 1, c :: rest =>
    if c == '"' then
      let k := rest.takeWhile (fun x => x != '"')
      match k, rest.dropWhile (fun x => x != '"') with
      | _ :: _, '"' :: r2 =>
        match r2.dropWhile pyWsChar with
        | ':' :: r4 =>
          match r4.dropWhile pyWsChar with
          | 't' :: 'r' :: 'u' :: 'e' :: r6 => (⟨k⟩, "true") :: findBoolPairsF fuel r6
          | 'f' :: 'a' :: 'l' :: 's' :: 'e' :: r6 =>
            (⟨k⟩, "false") :: findBoolPairsF fuel r6
          | _ => findBoolPairsF fuel rest
        | _ => findBoolPairsF fuel rest
      | _, _ => findBoolPairsF fuel rest
    else findBoolPairsF fuel rest

/-- Character class of a loose value in recovery strategy 3. -/
def valChar3 (c : Char) : Bool :=
  c.isAlphanum || c == '_' || c == '.' || c == '/' || c == '\\' || c == '-'

/-- Scanner for the loose key=value / key: value pattern of strategy 3. -/
def findLoosePairsF : Nat → List Char → List (String × String)
  | 0, _ => []
  | _ + 1, [] => []
  | fuel + 1, c :: rest =>
    if identChar c then
      let k := c :: rest.takeWhile identChar
      match rest.dropWhile identChar with
      | d :: r2 =>
        if d == '=' || d == ':' then
          let r3 := r2.dropWhile pyWsChar
          match r3.takeWhile valChar3 with
          | [] => findLoosePairsF fuel rest
          | v => (⟨k⟩, ⟨v⟩) :: findLoosePairsF fuel (r3.dropWhile valChar3)
        else findLoosePairsF fuel rest
      | [] => []
    else findLoosePairsF fuel rest

/-- Python int() of a lexeme of shape optional minus then digits. -/
def strToIntPy (lex : String) : Int :=
  match lex.data with
  | '-' :: ds => -(digitsToNat ds : Int)
  | ds => (digitsToNat ds : Int)

/-- Rational value of a digits.digits lexeme. -/
def ratOfDigits (ds : List Char) : ℚ :=
  let ip := ds.takeWhile digitChar
  match ds.dropWhile digitChar with
  | '.' :: fs => (digitsToNat ip : ℚ) + (digitsToNat fs : ℚ) / (10 : ℚ) ^ fs.length
  | _ => (digitsToNat ip : ℚ)

/-- Python float() of a numeric lexeme with optional minus sign. -/
def strToRatPy (lex : String) : ℚ :=
  match lex.data with
  | '-' :: ds => -(ratOfDigits ds)
  | ds => ratOfDigits ds

/-- Recovery strategy 2: union of the string, numeric, and boolean
key/value regex extractions, later assignments overwriting earlier. -/
def recoverStrategy2 (cs : List Char) : List (String × PyVal) :=
  let r1 := (findStringPairsF (cs.length + 1) cs).foldl
    (fun acc p => dinsert acc p.1 (.str p.2)) []
  let r2 := (findNumPairsF (cs.length + 1) cs).foldl
    (fun acc p =>
      dinsert acc p.1
        (if p.2.data.any (fun x => x == '.') then .float (strToRatPy p.2)
         else .int (strToIntPy p.2))) r1
  (findBoolPairsF (cs.length + 1) cs).foldl
    (fun acc p => dinsert acc p.1 (.bool (p.2 == "true"))) r2

/-- Fullmatch test for the strategy 3 float pattern: optional minus,
digits, dot, digits. -/
def isFloatLexeme (cs : List Char) : Bool :=
  let cs1 :=
    match cs with
    | '-' :: r => r
    | _ => cs
  let d1 := cs1.takeWhile digitChar
  match d1, cs1.dropWhile digitChar with
  | _ :: _, '.' :: r2 =>
    !(r2.takeWhile digitChar).isEmpty && (r2.dropWhile digitChar).isEmpty
  | _, _ => false

/-- ASCII lowercase of a character, as Python str.lower on ASCII text. -/
def pyLowerChar (c : Char) : Char :=
  if 'A' ≤ c && c ≤ 'Z' then Char.ofNat (c.toNat + 32) else c

/-- ASCII lowercase of a string. -/
def pyLower (s : String) : String := ⟨s.data.map pyLowerChar⟩

/-- Type coercion of a loose strategy 3 value. -/
def coerceLoose (v : String) : PyVal :=
  if pyLower v == "true" then .bool true
  else if pyLower v == "false" then .bool false
  else if !v.data.isEmpty && v.data.all digitChar then .int (digitsToNat v.data : Int)
  else if isFloatLexeme v.data then .float (strToRatPy v)
  else .str v

/-- Recovery strategy 3: loose key/value extraction with coercion. -/
def recoverStrategy3 (cs : List Char) : List (String × PyVal) :=
  (findLoosePairsF (cs.length + 1) cs).foldl
    (fun acc p => dinsert acc p.1 (coerceLoose p.2)) []

/-- Strategy 1 syntax repair: strip, remove trailing separators before
closers, quote bare identifier keys, and wrap in braces when the result
does not start with an opening brace or bracket. -/
def repairFix (s : String) : List Char :=
  let stripped := ((s.data.dropWhile pyWsChar).reverse.dropWhile pyWsChar).reverse
  let f1 := subCommaClose rbrace stripped
  let f2 := subCommaClose ']' f1
  let f3 := subQuoteKeys f2
  match f3 with
  | c :: _ => if c == lbrace || c == '[' then f3 else lbrace :: (f3 ++ [rbrace])
  | [] => lbrace :: (f3 ++ [rbrace])

/-- mcp_helpers._recover_json: best-effort recovery of a value from a
malformed configuration string. -/
def recover_json (s : String) : PyVal :=
  if s == "" then .dict []
  else
    match json_loads_chars (repairFix s) with
    | .ok v => v
    | .error _ =>
      let s2 := recoverStrategy2 s.data
      if !s2.isEmpty then .dict s2
      else .dict (recoverStrategy3 s.data)

/-- mcp_helpers.parse_config: strict parse with recovery; a missing or
empty configuration string yields the empty mapping. -/
def parse_config : Option String → PyVal
  | none => .dict []
  | some s =>
    if s == "" then .dict []
    else
      match json_loads s with
      | .ok v => v
      | .error _ => recover_json s

example : parse_config (some "\x7b\"a\": 1,\x7d") = .dict [("a", .int 1)] := by decide

example : parse_config (some "\x7ba: 1\x7d") = .dict [("a", .int 1)] := by decide

example : parse_config (some "a: 1") = .dict [("a", .int 1)] := by decide

example : parse_config (some "key=value") = .dict [("key", .str "value")] := by decide

example : parse_config (some "totally garbled !!!") = .dict [] := by decide

example : parse_config (some "\"x\": \"y\", \"n\": 3") =
    .dict [("x", .str "y"), ("n", .int 3)] := by decide

/-- Does the character list start with the given pattern. -/
def startsWithL : List Char → List Char → Bool
  | _, [] => true
  | [], _ :: _ => false
  | c :: cs, d :: ds => c == d && startsWithL cs ds

/-- Does the character list contain the given pattern as a contiguous
segment. -/
def containsL : List Char → List Char → Bool
  | [], p => p.isEmpty
  | c :: cs, p => startsWithL (c :: cs) p || containsL cs p

/-- Numeric view of a value, for Python equality between bool, int and
float. -/
def pyNumVal : PyVal → Option ℚ
  | .bool b => some (if b then 1 else 0)
  | .int n => some (n : ℚ)
  | .float q => some q
  | _ => none

mutual

/-- Python equality on values: numeric kinds compare by value, strings,
lists and dicts structurally (dicts up to key order). -/
def pyEq : PyVal → PyVal → Bool
  | .str a, .str b => a == b
  | .null, .null => true
  | .list a, .list b => pyEqList a b
  | .dict a, .dict b => a.length == b.length && pyEqDictSub a b
  | a, b =>
    match pyNumVal a, pyNumVal b with
    | some x, some y => x == y
    | _, _ => false

def pyEqList : List PyVal → List PyVal → Bool
  | [], [] => true
  | a :: as, b :: bs => pyEq a b && pyEqList as bs
  | _, _ => false

def pyEqDictSub : List (String × PyVal) → List (String × PyVal) → Bool
  | [], _ => true
  | (k, v) :: rest, b =>
    (match dictGet b k with
     | some w => pyEq v w
     | none => false) && pyEqDictSub rest b

end

/-- Python membership test (the in operator); raises TypeError on a
non-container. -/
def pyMem (x : PyVal) (container : PyVal) : Except String Bool :=
  match container with
  | .list xs => .ok (xs.any (fun e => pyEq x e))
  | .str s =>
    match x with
    | .str t => .ok (containsL s.data t.data)
    | _ => .error "TypeError: string member test needs string"
  | .dict kvs =>
    match x with
    | .str k => .ok (kvs.any (fun p => p.1 == k))
    | _ => .ok false
  | _ => .error "TypeError: argument is not iterable"

/-- Python dict.get with default; raises AttributeError on a non-dict. -/
def pyGetAttr (v : PyVal) (k : String) (dflt : PyVal) : Except String PyVal :=
  match v with
  | .dict kvs => .ok ((dictGet kvs k).getD dflt)
  | _ => .error "AttributeError: object has no attribute get"

/-- Python truthiness of an optional string (None or str). -/
def truthyOptStr : Option String → Bool
  | none => false
  | some s => s != ""

/-- An invocable capability held by an agent: a builtin operation module,
a tool reported by an MCP client, an agent-tool placeholder function, or
a wrapped sub-agent call. -/
inductive Capability : Type where
  | builtin (moduleName : String)
  | mcpTool (name : String)
  | agentFn (name : String)
  | agentWrapper (name : String) (doc : String)
deriving DecidableEq

/-- A persisted tool record as prepared by the loader. -/
structure ToolData where
  name : String
  tool_type : String
  config : Option String
  agent_id : Option String
deriving DecidableEq

/-- The fixed builtin registry of workflow_runner (tool_mapping); the
think key maps to the local think_tool wrapper and use_llm is absent. -/
def tool_mapping : List (String × Capability) :=
  [("file_read", .builtin "file_read"),
   ("file_write", .builtin "file_write"),
   ("editor", .builtin "editor"),
   ("shell", .builtin "shell"),
   ("http_request", .builtin "http_request"),
   ("python_repl", .builtin "python_repl"),
   ("calculator", .builtin "calculator"),
   ("use_aws", .builtin "use_aws"),
   ("retrieve", .builtin "retrieve"),
   ("nova_reels", .builtin "nova_reels"),
   ("memory", .builtin "memory"),
   ("environment", .builtin "environment"),
   ("generate_image", .builtin "generate_image"),
   ("image_reader", .builtin "image_reader"),
   ("journal", .builtin "journal"),
   ("think", .builtin "think_tool"),
   ("load_tool", .builtin "load_tool"),
   ("swarm", .builtin "swarm"),
   ("current_time", .builtin "current_time"),
   ("sleep", .builtin "sleep"),
   ("agent_graph", .builtin "agent_graph"),
   ("cron", .builtin "cron"),
   ("slack", .builtin "slack"),
   ("speak", .builtin "speak"),
   ("stop", .builtin "stop"),
   ("workflow", .builtin "workflow"),
   ("batch", .builtin "batch")]

/-- Registry lookup by exact key. -/
def registryGet (k : String) : Option Capability :=
  (tool_mapping.find? (fun p => p.1 == k)).map (fun p => p.2)

/-- Oracle for the external MCP client: given command, args and env,
either report the names of the exposed tools or raise. -/
structure MCPEnv where
  startAndList : PyVal → PyVal → PyVal → Except String (List String)

/-- Keep the tool names whose name is not a member of the disabled
container (the filtering list comprehension). -/
def filterDisabledAux (names : List String) (disabled : PyVal) :
    Except String (List String) :=
  match names with
  | [] => .ok []
  | n :: rest =>
    match pyMem (.str n) disabled with
    | .error e => .error e
    | .ok b =>
      match filterDisabledAux rest disabled with
      | .error e => .error e
      | .ok tl => .ok (if b then tl else n :: tl)

/-- The mcp branch of _create_tool_instance_from_data: locate launch
parameters, read disabled_tools from the root config, start the client,
and filter; every exception inside the branch yields None. -/
def mcpToolBranch (menv : MCPEnv) (config : PyVal) : Option (List Capability) :=
  let t := locate_config config
  match pyGetAttr config "disabled_tools" (.list []) with
  | .error _ => none
  | .ok disabled =>
    if !truthy t.1 then none
    else
      match menv.startAndList t.1 t.2.1 t.2.2.1 with
      | .error _ => none
      | .ok names =>
        if truthy disabled && !names.isEmpty then
          match filterDisabledAux names disabled with
          | .error _ => none
          | .ok kept => some (kept.map Capability.mcpTool)
        else some (names.map Capability.mcpTool)

/-- workflow_runner._create_tool_instance_from_data: build the capability
list for one tool record, or None. -/
def create_tool_instance_from_data (menv : MCPEnv) (td : ToolData) :
    Option (List Capability) :=
  let config := parse_config td.config
  if td.tool_type == "builtin" then
    match registryGet (pyLower td.name) with
    | some cap => some [cap]
    | none => none
  else if td.tool_type == "mcp" then mcpToolBranch menv config
  else if td.tool_type == "agent" && truthyOptStr td.agent_id then
    some [.agentFn td.name]
  else none

/-- A persisted agent record as prepared by the loader (reference data of
an agent node), with its joined tool records. -/
structure AgentRef where
  name : String
  prompt : String
  description : Option String
  model_id : Option String
  tools : List ToolData
deriving DecidableEq

/-- Reference data attached to a node: an agent record or a tool record. -/
inductive NodeRef : Type where
  | agentRef (a : AgentRef)
  | toolRef (t : ToolData)
deriving DecidableEq

/-- A live Strands agent object: model, system prompt, capability list,
and the name/description attributes set by create_agent. -/
structure StrandsAgentV where
  model : Option String
  system_prompt : String
  tools : List Capability
  agent_name : Option String
  agent_description : Option String
deriving DecidableEq

/-- Oracles for agent construction: the MCP client and the model catalog
resolution. -/
structure WorkflowEnv where
  mcp : MCPEnv
  resolveModel : String → String

/-- workflow_runner.create_agent: build a Strands agent from reference
data, collecting the capabilities of every tool record that instantiates
(records yielding None are skipped); missing or tool-shaped reference
data yields None. -/
def create_agent (wenv : WorkflowEnv) (reference : Option NodeRef) :
    Option StrandsAgentV :=
  match reference with
  | none => none
  | some (.toolRef _) => none
  | some (.agentRef a) =>
    let agent_tools := a.tools.foldl
      (fun acc td =>
        match create_tool_instance_from_data wenv.mcp td with
        | some l => acc ++ l
        | none => acc) []
    let model_arg :=
      if truthyOptStr a.model_id then a.model_id.map wenv.resolveModel else a.model_id
    some { model := model_arg, system_prompt := a.prompt, tools := agent_tools,
           agent_name := some a.name,
           agent_description := some (a.description.getD "") }

/-- A node of a persisted workflow graph. -/
structure NodeData where
  id : String
  type : String
  reference : Option NodeRef
deriving DecidableEq

/-- A resolved workflow context as produced by load_workflow: identity,
display data, fully joined nodes (insertion-ordered) and edges. -/
structure WorkflowContext where
  id : String
  name : String
  description : String
  model_id : Option String
  nodes : List (String × NodeData)
  edges : List (String × String)
deriving DecidableEq

/-- workflow_runner.create_tool: capability list for a tool node; a tool
node whose reference is agent-shaped raises (uncaught KeyError on
tool_type). -/
def create_tool (menv : MCPEnv) (nd : NodeData) :
    Except String (Option (List Capability)) :=
  match nd.reference with
  | none => .ok none
  | some (.toolRef t) => .ok (create_tool_instance_from_data menv t)
  | some (.agentRef _) => .error "KeyError: tool_type"

/-- The loop of workflow_runner.create_nodes over the node dictionary. -/
def create_nodes_loop (wenv : WorkflowEnv) :
    List (String × NodeData) → List StrandsAgentV → List (List Capability) →
      Except String (List StrandsAgentV × List (List Capability))
  | [], agents, tools => .ok (agents, tools)
  | (_, nd) :: rest, agents, tools =>
    if nd.type == "agent" then
      match create_agent wenv nd.reference with
      | some a => create_nodes_loop wenv rest (agents ++ [a]) tools
      | none => create_nodes_loop wenv rest agents tools
    else if nd.type == "tool" then
      match create_tool wenv.mcp nd with
      | .error e => .error e
      | .ok (some l) =>
        if !l.isEmpty then create_nodes_loop wenv rest agents (tools ++ [l])
        else create_nodes_loop wenv rest agents tools
      | .ok none => create_nodes_loop wenv rest agents tools
    else create_nodes_loop wenv rest agents tools

/-- workflow_runner.create_nodes: agents and tool capability lists of the
graph nodes, in insertion order. -/
def create_nodes (wenv : WorkflowEnv) (nodes : List (String × NodeData)) :
    Except String (List StrandsAgentV × List (List Capability)) :=
  create_nodes_loop wenv nodes [] []

/-- Display name of a node id, as used by prompt generation. -/
def nodeName (nodes : List (String × NodeData)) (nid : String) : String :=
  match (nodes.find? (fun p => p.1 == nid)).map (fun p => p.2) with
  | some nd =>
    match nd.reference with
    | some (.agentRef a) => a.name
    | some (.toolRef t) => t.name
    | none => "Node " ++ nid
  | none => "Node " ++ nid

/-- Type of a node id if the node exists. -/
def nodeType (nodes : List (String × NodeData)) (nid : String) : Option String :=
  (nodes.find? (fun p => p.1 == nid)).map (fun p => p.2.type)

/-- The line generated for one edge in the workflow system prompt, with
the input and output substitutions. -/
def edge_sentence (nodes : List (String × NodeData)) (e : String × String) : String :=
  let source_name :=
    if nodeType nodes e.1 == some "input" then "the initial input" else nodeName nodes e.1
  let target_name :=
    if nodeType nodes e.2 == some "output" then "the user as final response"
    else nodeName nodes e.2
  "- You can from " ++ source_name ++ " send the result to the " ++ target_name ++ "\n"

/-- The line generated for one non-input/output node in the workflow
system prompt. -/
def node_line (p : String × NodeData) : String :=
  let node_name :=
    match p.2.reference with
    | some (.agentRef a) => a.name
    | some (.toolRef t) => t.name
    | none => "Node " ++ p.1
  "- " ++ node_name ++ " (ID: " ++ p.1 ++ ", Type: " ++ p.2.type ++ ")\n"

/-- Concatenation of a list of strings. -/
def joinAll : List String → String
  | [] => ""
  | s :: rest => s ++ joinAll rest

/-- The fixed routing instructions appended to the workflow prompt. -/
def promptInstructions : String :=
  "\n## Instructions\n" ++
  "1. When you receive a user message, identify the appropriate starting point in the workflow.\n" ++
  "2. Route the message through the workflow according to the graph structure.\n" ++
  "3. Each agent or tool in the workflow will process the message and produce a response.\n" ++
  "4. Follow the graph edges to determine the next node (agent or tool) to invoke.\n" ++
  "5. For agent nodes, use the corresponding agent tool to process the message.\n" ++
  "6. For tool nodes, use the corresponding tool directly to process the message.\n" ++
  "7. Return the final response to the user.\n"

/-- Everything of the workflow prompt before the edge lines. -/
def promptPre (ctx : WorkflowContext) : String :=
  "# Workflow: " ++ ctx.name ++ "\n\n" ++ ctx.description ++ "\n\n" ++
  "## Your Role\n" ++
  "You are the Workflow Orchestrator responsible for managing the execution of this workflow. " ++
  "You receive user messages and route them through the workflow according to the graph structure below.\n\n" ++
  "## Workflow Graph Structure\n" ++
  "### Nodes:\n" ++
  joinAll ((ctx.nodes.filter
    (fun p => p.2.type != "input" && p.2.type != "output")).map node_line) ++
  "\n### Edges:\n"

/-- workflow_runner._generate_workflow_prompt. -/
def generate_workflow_prompt (ctx : WorkflowContext) : String :=
  promptPre ctx ++ joinAll (ctx.edges.map (edge_sentence ctx.nodes)) ++
    promptInstructions

/-- Replacement of every character outside the allowed tool-name class by
an underscore. -/
def sanitizeChar (c : Char) : Char :=
  if c.isAlphanum || c == '_' || c == '-' then c else '_'

/-- Sanitized capability name of a wrapped agent. -/
def sanitizeName (s : String) : String := ⟨s.data.map sanitizeChar⟩

/-- Wrap an already instantiated agent as a single-argument capability. -/
def wrapAgentCap (a : StrandsAgentV) : Capability :=
  let nm := a.agent_name.getD ""
  .agentWrapper (sanitizeName nm)
    (if truthyOptStr a.agent_description then a.agent_description.getD ""
     else " Execute the agent called " ++ nm ++ " ")

/-- workflow_runner._create_orchestrator: wrapped agents plus directly
attached tool capabilities, with the generated workflow prompt. -/
def create_orchestrator (wenv : WorkflowEnv) (ctx : WorkflowContext)
    (agents : List StrandsAgentV) (tools : List (List Capability)) : StrandsAgentV :=
  let all_tools := agents.map wrapAgentCap ++
    tools.foldl (fun acc l => if !l.isEmpty then acc ++ l else acc) []
  let system_prompt := generate_workflow_prompt ctx
  let model_id :=
    if truthyOptStr ctx.model_id then ctx.model_id.map wenv.resolveModel else ctx.model_id
  { model := model_id, system_prompt := system_prompt, tools := all_tools,
    agent_name := none, agent_description := none }

/-- The setup phase of _processing_thread: create the nodes, pick or
synthesize the orchestrator, and emit STARTED; an exception before the
STARTED put leaves the output channel without it. -/
def processing_setup (wenv : WorkflowEnv) (ctx : WorkflowContext) :
    Except String StrandsAgentV × List String :=
  match create_nodes wenv ctx.nodes with
  | .error e => (.error e, [])
  | .ok (agents, tools) =>
    if agents.length > 1 then
      (.ok (create_orchestrator wenv ctx agents tools), ["_Q_E_E_STARTED"])
    else
      match agents with
      | [] => (.error "IndexError: list index out of range", [])
      | a :: _ => (.ok a, ["_Q_E_E_STARTED"])

/-- One conversation history entry. -/
structure HistEntry where
  role : String
  content : String
  timestamp : String
deriving DecidableEq

/-- The state owned by a worker between turns. -/
structure WorkerState where
  orchestrator : StrandsAgentV
  history : List HistEntry
deriving DecidableEq

/-- Oracles of the worker loop: the orchestrator invocation (streamed
delta payloads and final answer text) and the two serialized timestamps
of a turn. -/
structure ProcEnv where
  invoke : String → List String × String
  timeUser : String
  timeAssistant : String

/-- Hexadecimal digit character. -/
def hexDigit (n : Nat) : Char :=
  if n < 10 then Char.ofNat (48 + n) else Char.ofNat (87 + n)

/-- JSON string escaping of one character. -/
def jsonEscapeChar (c : Char) : List Char :=
  if c == '"' then ['\\', '"']
  else if c == '\\' then ['\\', '\\']
  else if c == '\n' then ['\\', 'n']
  else if c == '\t' then ['\\', 't']
  else if c == '\r' then ['\\', 'r']
  else if c == Char.ofNat 8 then ['\\', 'b']
  else if c == Char.ofNat 12 then ['\\', 'f']
  else if c.toNat < 32 then
    ['\\', 'u', '0', '0', hexDigit (c.toNat / 16), hexDigit (c.toNat % 16)]
  else [c]

/-- JSON quoting of a string. -/
def jsonQuote (s : String) : String :=
  "\"" ++ (⟨(s.data.map jsonEscapeChar).flatten⟩ : String) ++ "\""

/-- Join strings with a separator. -/
def joinSep (sep : String) : List String → String
  | [] => ""
  | [s] => s
  | s :: rest => s ++ sep ++ joinSep sep rest

/-- json.dumps of one history entry (insertion key order). -/
def serializeHistoryEntry (e : HistEntry) : String :=
  "\x7b\"role\": " ++ jsonQuote e.role ++ ", \"content\": " ++ jsonQuote e.content ++
    ", \"timestamp\": " ++ jsonQuote e.timestamp ++ "\x7d"

/-- json.dumps of the conversation history. -/
def serializeHistory (h : List HistEntry) : String :=
  "[" ++ joinSep ", " (h.map serializeHistoryEntry) ++ "]"

/-- One iteration of the worker receive loop of _processing_thread:
returns the state after the message (none when terminating) and the
messages put on the output channel, in order. -/
def worker_step (penv : ProcEnv) (st : WorkerState) (message : String) :
    Option WorkerState × List String :=
  if message == "_Q_E_E_TERMINATE" then (none, [])
  else if message == "_Q_E_E_RETRIEVE" then
    (some st, ["_Q_E_E_HISTORY" ++ serializeHistory st.history])
  else
    let h1 := st.history ++
      [{ role := "user", content := message, timestamp := penv.timeUser }]
    let fragsAnswer := penv.invoke message
    let h2 := h1 ++
      [{ role := "assistant", content := fragsAnswer.2,
         timestamp := penv.timeAssistant }]
    (some { st with history := h2 },
     fragsAnswer.1.map (fun d => "data: " ++ d ++ "\nend") ++ ["_Q_E_E_ANSWERED"])

example : serializeHistory [] = "[]" := by decide

example :
    create_tool_instance_from_data ⟨fun _ _ _ => .error "down"⟩
      { name := "Calculator", tool_type := "builtin", config := none, agent_id := none } =
      some [.builtin "calculator"] := by decide

/-! Helper lemmas about the embedded definitions. -/

theorem str_append_data (a b : String) : (a ++ b).data = a.data ++ b.data := rfl

mutual

theorem locate_noCommand : ∀ (v : PyVal), specHasCommandAtAnyDepth v = false →
    locate_config v = (.null, .null, .null, .null)
  | .null, _ => rfl
  | .bool _, _ => rfl
  | .int _, _ => rfl
  | .float _, _ => rfl
  | .str _, _ => rfl
  | .list _, _ => rfl
  | .dict kvs, h => by
      unfold specHasCommandAtAnyDepth at h
      rw [Bool.or_eq_false_iff] at h
      obtain ⟨h1, h2⟩ := h
      unfold locate_config
      cases hc : dictGet kvs "command" with
      | none => exact locateLoop_noCommand kvs h2
      | some c => rw [hc] at h1; simp at h1

theorem locateLoop_noCommand : ∀ (l : List (String × PyVal)),
    specHasCommandLoop l = false → locateLoop l = (.null, .null, .null, .null)
  | [], _ => rfl
  | (_, .dict kvs) :: rest, h => by
      unfold specHasCommandLoop at h
      rw [Bool.or_eq_false_iff] at h
      obtain ⟨h1, h2⟩ := h
      simp only [locateLoop, locate_noCommand (.dict kvs) h1, truthy]
      exact locateLoop_noCommand rest h2
  | (_, .null) :: rest, h => by
      unfold specHasCommandLoop at h
      rw [Bool.or_eq_false_iff] at h
      simp only [locateLoop]
      exact locateLoop_noCommand rest h.2
  | (_, .bool _) :: rest, h => by
      unfold specHasCommandLoop at h
      rw [Bool.or_eq_false_iff] at h
      simp only [locateLoop]
      exact locateLoop_noCommand rest h.2
  | (_, .int _) :: rest, h => by
      unfold specHasCommandLoop at h
      rw [Bool.or_eq_false_iff] at h
      simp only [locateLoop]
      exact locateLoop_noCommand rest h.2
  | (_, .float _) :: rest, h => by
      unfold specHasCommandLoop at h
      rw [Bool.or_eq_false_iff] at h
      simp only [locateLoop]
      exact locateLoop_noCommand rest h.2
  | (_, .str _) :: rest, h => by
      unfold specHasCommandLoop at h
      rw [Bool.or_eq_false_iff] at h
      simp only [locateLoop]
      exact locateLoop_noCommand rest h.2
  | (_, .list _) :: rest, h => by
      unfold specHasCommandLoop at h
      rw [Bool.or_eq_false_iff] at h
      simp only [locateLoop]
      exact locateLoop_noCommand rest h.2

end

theorem locate_truthy_implies (v : PyVal)
    (h : truthy (locate_config v).1 = true) :
    specHasCommandAtAnyDepth v = true := by
  cases hx : specHasCommandAtAnyDepth v
  · rw [locate_noCommand v hx] at h
    exact absurd h (by decide)
  · rfl

theorem startsWithL_iff : ∀ (s p : List Char), startsWithL s p = true ↔ ∃ t, s = p ++ t
  | s, [] => by simp [startsWithL]
  | [], d :: ds => by simp [startsWithL]
  | c :: cs, d :: ds => by
      simp only [startsWithL, Bool.and_eq_true, beq_iff_eq, startsWithL_iff cs ds,
        List.cons_append, List.cons.injEq, exists_and_left]

theorem containsL_iff : ∀ (s p : List Char), containsL s p = true ↔ ∃ a b, s = a ++ p ++ b
  | [], p => by
      simp only [containsL, List.isEmpty_iff]
      constructor
      · rintro rfl; exact ⟨[], [], rfl⟩
      · rintro ⟨a, b, h⟩
        have h2 := h.symm
        simp only [List.append_assoc, List.append_eq_nil] at h2
        exact h2.2.1
  | c :: cs, p => by
      simp only [containsL, Bool.or_eq_true, startsWithL_iff, containsL_iff cs p]
      constructor
      · rintro (⟨t, ht⟩ | ⟨a, b, hab⟩)
        · exact ⟨[], t, by simpa using ht⟩
        · exact ⟨c :: a, b, by simp [hab]⟩
      · rintro ⟨a, b, h⟩
        cases a with
        | nil => exact Or.inl ⟨b, by simpa using h⟩
        | cons a0 as =>
            refine Or.inr ⟨as, b, ?_⟩
            have h2 : c :: cs = a0 :: (as ++ p ++ b) := by simpa using h
            exact (List.cons.injEq _ _ _ _ ▸ h2).2

/-- The string p occurs in s as a contiguous substring. -/
def SubStrP (p s : String) : Prop := ∃ a b : List Char, s.data = a ++ p.data ++ b

theorem joinAll_substr {α : Type} (f : α → String) :
    ∀ (l : List α) (e : α), e ∈ l → ∃ a b : List Char,
      (joinAll (l.map f)).data = a ++ (f e).data ++ b
  | [], e, h => absurd h (List.not_mem_nil e)
  | x :: xs, e, h => by
      rcases List.mem_cons.mp h with he | hx
      · subst he
        exact ⟨[], (joinAll (xs.map f)).data, by simp [joinAll, str_append_data]⟩
      · obtain ⟨a, b, hab⟩ := joinAll_substr f xs e hx
        exact ⟨(f x).data ++ a, b, by simp [joinAll, str_append_data, hab]⟩

/-! Claim C1: the edge directive lines of the synthesized prompt. -/

/-- A two-agent-node workflow graph with one edge, used for claim C1. -/
def arefA : AgentRef :=
  { name := "A", prompt := "PA", description := some "", model_id := none, tools := [] }

/-- Second agent record of the C1 graph. -/
def arefB : AgentRef :=
  { name := "B", prompt := "PB", description := some "", model_id := none, tools := [] }

/-- A resolved graph with agent nodes A and B and the single edge A to B. -/
def ctxC1 : WorkflowContext :=
  { id := "w1", name := "W", description := "demo", model_id := none,
    nodes := [("a", { id := "a", type := "agent", reference := some (.agentRef arefA) }),
              ("b", { id := "b", type := "agent", reference := some (.agentRef arefB) })],
    edges := [("a", "b")] }

/-- C1 counterexample: for the graph with agent nodes A and B and edge
A to B, the synthesized orchestrator system prompt does not contain the
sentence "you may send the result from A to B" claimed by the
specification (the code emits a differently worded line). -/
theorem C1_counterexample :
    ¬ SubStrP "you may send the result from A to B" (generate_workflow_prompt ctxC1) := by
  intro h
  obtain ⟨a, b, hab⟩ := h
  have ht : containsL (generate_workflow_prompt ctxC1).data
      ("you may send the result from A to B").data = true :=
    (containsL_iff _ _).mpr ⟨a, b, hab⟩
  have hf : containsL (generate_workflow_prompt ctxC1).data
      ("you may send the result from A to B").data = false := by decide
  rw [hf] at ht
  exact Bool.false_ne_true ht

/-- C1 (amended): for every resolved graph and every edge (source,
target) in it, the synthesized orchestrator system prompt contains the
directive line "- You can from SOURCE send the result to the TARGET"
(followed by a newline), where the source name is replaced by the
literal phrase "the initial input" when the source node has kind input,
and the target name by "the user as final response" when the target node
has kind output (edge_sentence is exactly that line). -/
theorem C1_edge_directive_line (ctx : WorkflowContext) (e : String × String)
    (he : e ∈ ctx.edges) :
    SubStrP (edge_sentence ctx.nodes e) (generate_workflow_prompt ctx) := by
  obtain ⟨a, b, hab⟩ := joinAll_substr (edge_sentence ctx.nodes) ctx.edges e he
  refine ⟨(promptPre ctx).data ++ a, b ++ promptInstructions.data, ?_⟩
  unfold generate_workflow_prompt
  simp [str_append_data, hab, List.append_assoc]

/-- C1 witness: on the concrete two-agent graph, the edge (a, b) is in
the graph, its directive line is the literal sentence below, and the
generated prompt contains it. -/
theorem C1_edge_directive_line_witness :
    ("a", "b") ∈ ctxC1.edges ∧
    edge_sentence ctxC1.nodes ("a", "b") = "- You can from A send the result to the B\n" ∧
    SubStrP (edge_sentence ctxC1.nodes ("a", "b")) (generate_workflow_prompt ctxC1) :=
  ⟨by decide, by decide, C1_edge_directive_line ctxC1 ("a", "b") (by decide)⟩

/-- The locate_config loop skips every leading item whose nested search
yields no truthy command (non-mappings included). -/
theorem locateLoop_append_skip :
    ∀ (pre l : List (String × PyVal)),
      (∀ p ∈ pre, truthy (locate_config p.2).1 = false) →
      locateLoop (pre ++ l) = locateLoop l
  | [], l, _ => rfl
  | (k, v) :: pre, l, h => by
      have hv : truthy (locate_config v).1 = false := h (k, v) (List.mem_cons_self _ _)
      have hrest : ∀ p ∈ pre, truthy (locate_config p.2).1 = false :=
        fun p hp => h p (List.mem_cons_of_mem _ hp)
      cases v with
      | dict kvs =>
          simp only [List.cons_append, locateLoop, hv, Bool.false_eq_true, if_false]
          exact locateLoop_append_skip pre l hrest
      | null =>
          simp only [List.cons_append, locateLoop]
          exact locateLoop_append_skip pre l hrest
      | bool _ =>
          simp only [List.cons_append, locateLoop]
          exact locateLoop_append_skip pre l hrest
      | int _ =>
          simp only [List.cons_append, locateLoop]
          exact locateLoop_append_skip pre l hrest
      | float _ =>
          simp only [List.cons_append, locateLoop]
          exact locateLoop_append_skip pre l hrest
      | str _ =>
          simp only [List.cons_append, locateLoop]
          exact locateLoop_append_skip pre l hrest
      | list _ =>
          simp only [List.cons_append, locateLoop]
          exact locateLoop_append_skip pre l hrest

/-- The locate_config loop returns the nested result of the head item
when that result's command is truthy. -/
theorem locateLoop_cons_truthy (k : String) (sub : List (String × PyVal))
    (rest : List (String × PyVal))
    (h : truthy (locate_config (.dict sub)).1 = true) :
    locateLoop ((k, .dict sub) :: rest) = locate_config (.dict sub) := by
  simp only [locateLoop, h, if_true]

/-- The locate_config loop either finds a truthy command or returns the
all-None tuple. -/
theorem locateLoop_dichotomy :
    ∀ l : List (String × PyVal),
      locateLoop l = (.null, .null, .null, .null) ∨ truthy (locateLoop l).1 = true
  | [] => Or.inl rfl
  | (k, v) :: rest => by
      cases v with
      | dict kvs =>
          cases ht : truthy (locate_config (.dict kvs)).1 with
          | true =>
              right
              simp only [locateLoop, ht, if_true]
          | false =>
              simp only [locateLoop, ht, Bool.false_eq_true, if_false]
              exact locateLoop_dichotomy rest
      | null => simp only [locateLoop]; exact locateLoop_dichotomy rest
      | bool _ => simp only [locateLoop]; exact locateLoop_dichotomy rest
      | int _ => simp only [locateLoop]; exact locateLoop_dichotomy rest
      | float _ => simp only [locateLoop]; exact locateLoop_dichotomy rest
      | str _ => simp only [locateLoop]; exact locateLoop_dichotomy rest
      | list _ => simp only [locateLoop]; exact locateLoop_dichotomy rest

/-- On a mapping with no top-level command key, the first item (in
insertion order) whose recursive search yields a truthy command
determines the result: every earlier item fails, and the helper returns
the recursive result of that sub-mapping. -/
theorem locate_first_truthy_nested (pre rest : List (String × PyVal)) (k : String)
    (sub : List (String × PyVal))
    (hnone : dictGet (pre ++ (k, .dict sub) :: rest) "command" = none)
    (hpre : ∀ p ∈ pre, truthy (locate_config p.2).1 = false)
    (hsub : truthy (locate_config (.dict sub)).1 = true) :
    locate_config (.dict (pre ++ (k, .dict sub) :: rest)) = locate_config (.dict sub) := by
  unfold locate_config
  rw [hnone, locateLoop_append_skip pre _ hpre]
  exact locateLoop_cons_truthy k sub rest hsub

/-- On a mapping with no top-level command key, the result is the
all-None tuple unless a truthy command is located: command keys at depth
whose values are all falsy cannot produce a result. -/
theorem locate_falsy_everywhere (kvs : List (String × PyVal))
    (h : dictGet kvs "command" = none) :
    locate_config (.dict kvs) = (.null, .null, .null, .null) ∨
      truthy (locate_config (.dict kvs)).1 = true := by
  unfold locate_config
  rw [h]
  exact locateLoop_dichotomy kvs

/-! Claim C5: the locate launch parameters helper. -/

/-- C5 counterexample: the mapping with the single nested sub-mapping
holding a command key whose value is the empty string contains a command
key at depth, yet locate_config returns the all-None tuple instead of
the command with its sub-mapping data: a nested occurrence whose command
value is falsy is skipped by the helper. -/
theorem C5_counterexample :
    specHasCommandAtAnyDepth (.dict [("a", .dict [("command", .str "")])]) = true ∧
    locate_config (.dict [("a", .dict [("command", .str "")])]) =
      (.null, .null, .null, .null) := ⟨by decide, by decide⟩

/-- C5 (amended): for a non-mapping input locate_config returns the
all-None 4-tuple; a mapping with a top-level command key yields that
command with the mapping's args, environment and disabled names
(defaulting to empty); a mapping with no command key at any depth yields
all-None; a truthy located command implies a command key exists at some
depth; on a mapping with no top-level command key, the first item in
insertion order whose recursive search yields a truthy command is
returned (every earlier item failing), the result being the recursive
locate of that sub-mapping; and on such a mapping the result is
all-None unless a truthy command is located, so a mapping whose only
command keys at depth have falsy values also yields all-None. -/
theorem C5_locate_config_behavior :
    (∀ v : PyVal, isDictB v = false →
        locate_config v = (.null, .null, .null, .null)) ∧
    (∀ (kvs : List (String × PyVal)) (c : PyVal), dictGet kvs "command" = some c →
        locate_config (.dict kvs) =
          (c, (dictGet kvs "args").getD (.list []),
              (dictGet kvs "env").getD (.dict []),
              (dictGet kvs "disabled_tools").getD (.list []))) ∧
    (∀ v : PyVal, specHasCommandAtAnyDepth v = false →
        locate_config v = (.null, .null, .null, .null)) ∧
    (∀ v : PyVal, truthy (locate_config v).1 = true →
        specHasCommandAtAnyDepth v = true) ∧
    (∀ (pre rest : List (String × PyVal)) (k : String)
        (sub : List (String × PyVal)),
        dictGet (pre ++ (k, .dict sub) :: rest) "command" = none →
        (∀ p ∈ pre, truthy (locate_config p.2).1 = false) →
        truthy (locate_config (.dict sub)).1 = true →
        locate_config (.dict (pre ++ (k, .dict sub) :: rest)) =
          locate_config (.dict sub)) ∧
    (∀ kvs : List (String × PyVal), dictGet kvs "command" = none →
        locate_config (.dict kvs) = (.null, .null, .null, .null) ∨
          truthy (locate_config (.dict kvs)).1 = true) := by
  refine ⟨?_, ?_, locate_noCommand, locate_truthy_implies,
    locate_first_truthy_nested, locate_falsy_everywhere⟩
  · intro v h
    cases v <;> first | rfl | exact absurd h (by simp [isDictB])
  · intro kvs c h
    unfold locate_config
    rw [h]

/-- C5 witness: the six parts of the amended claim applied at concrete
inputs; in particular, on a mapping whose first two items are a
non-mapping and a sub-mapping with a falsy command, the third item's
sub-mapping (the first truthy occurrence in insertion order) determines
the result, and a mapping whose only command key at depth is falsy
yields all-None. -/
theorem C5_locate_config_behavior_witness :
    locate_config (.str "zzz") = (.null, .null, .null, .null) ∧
    locate_config (.dict [("command", .str "run"), ("args", .list [.str "-v"])]) =
      (.str "run", .list [.str "-v"], .dict [], .list []) ∧
    locate_config (.dict [("x", .int 3)]) = (.null, .null, .null, .null) ∧
    specHasCommandAtAnyDepth (.dict [("s", .dict [("command", .str "go")])]) = true ∧
    locate_config (.dict
        [("x", .int 1), ("a", .dict [("command", .str "")]),
         ("b", .dict [("command", .str "go"), ("args", .list [.str "-v"])]),
         ("c", .dict [("command", .str "zz")])]) =
      (.str "go", .list [.str "-v"], .dict [], .list []) ∧
    (locate_config (.dict [("a", .dict [("command", .str "")])]) =
        (.null, .null, .null, .null) ∨
      truthy (locate_config (.dict [("a", .dict [("command", .str "")])])).1 = true) :=
  ⟨C5_locate_config_behavior.1 _ (by decide),
   (C5_locate_config_behavior.2.1 [("command", .str "run"), ("args", .list [.str "-v"])]
      (.str "run") (by decide)).trans (by decide),
   C5_locate_config_behavior.2.2.1 _ (by decide),
   C5_locate_config_behavior.2.2.2.1 _ (by decide),
   (C5_locate_config_behavior.2.2.2.2.1
      [("x", .int 1), ("a", .dict [("command", .str "")])]
      [("c", .dict [("command", .str "zz")])] "b"
      [("command", .str "go"), ("args", .list [.str "-v"])]
      (by decide) (by decide) (by decide)).trans (by decide),
   C5_locate_config_behavior.2.2.2.2.2 _ (by decide)⟩

/-! Claim C3: the config recovery parser. -/

/-- C3 counterexample: the well-formed input string holding a JSON array
makes parse_config return a list, not a key-to-value mapping, so the
claim that every input string yields a mapping is false. -/
theorem C3_counterexample :
    parse_config (some "[1, 2]") = .list [.int 1, .int 2] ∧
    isDictB (parse_config (some "[1, 2]")) = false := ⟨by decide, by decide⟩

/-- C3 (amended): for every input string the parser returns a value and
never raises (parse_config is a total function of the input; every
fallible operation of the source is modelled with Except and caught
inside it); the result is a key-to-value mapping except when the strict
parse, or the parse of the syntax-repaired string, succeeds with a
non-mapping JSON value, which is returned as is.  The empty mapping is
the worst-case result of the regex recovery strategies. -/
theorem C3_parse_config_shape :
    ∀ s : String,
      isDictB (parse_config (some s)) = true ∨
      json_loads s = .ok (parse_config (some s)) ∨
      json_loads_chars (repairFix s) = .ok (parse_config (some s)) := by
  intro s
  unfold parse_config
  cases h0 : (s == "") with
  | true => left; simp [h0, isDictB]
  | false =>
      simp only [h0, Bool.false_eq_true, if_false]
      cases hj : json_loads s with
      | ok v => right; left; rw [hj.symm]
      | error e =>
          unfold recover_json
          simp only [h0, Bool.false_eq_true, if_false]
          cases hr : json_loads_chars (repairFix s) with
          | ok v => right; right; rw [hr.symm]
          | error e2 =>
              left
              cases (recoverStrategy2 s.data).isEmpty <;> simp [isDictB]

/-! Claim C7: builtin capability lookup. -/

/-- C7: for every builtin-kind tool record the factory looks the
record's name up lowercased in the fixed registry tool_mapping (whose
keys are lowercase, hence a case-insensitive lookup), returns the single
registered operation as a one-element capability list, returns None for
a name not in the registry, and two builtin records whose names agree up
to case produce the same result. -/
theorem C7_builtin_lookup :
    (∀ (menv : MCPEnv) (td : ToolData) (cap : Capability),
        td.tool_type = "builtin" → registryGet (pyLower td.name) = some cap →
        create_tool_instance_from_data menv td = some [cap]) ∧
    (∀ (menv : MCPEnv) (td : ToolData),
        td.tool_type = "builtin" → registryGet (pyLower td.name) = none →
        create_tool_instance_from_data menv td = none) ∧
    (∀ (menv : MCPEnv) (td td2 : ToolData),
        td.tool_type = "builtin" → td2.tool_type = "builtin" →
        pyLower td.name = pyLower td2.name →
        create_tool_instance_from_data menv td =
          create_tool_instance_from_data menv td2) := by
  refine ⟨?_, ?_, ?_⟩
  · intro menv td cap h hr
    simp [create_tool_instance_from_data, h, hr]
  · intro menv td h hr
    simp [create_tool_instance_from_data, h, hr]
  · intro menv td td2 h h2 h3
    simp only [create_tool_instance_from_data, h, h2, h3]
    simp

def failEnv : MCPEnv := ⟨fun _ _ _ => .error "client failed"⟩

/-- C7 witness: the lookup applied to the names Calculator (mixed case,
found), no_such_tool (absent) and CALCULATOR versus calculator. -/
theorem C7_builtin_lookup_witness :
    create_tool_instance_from_data failEnv
      { name := "Calculator", tool_type := "builtin", config := none, agent_id := none } =
      some [.builtin "calculator"] ∧
    create_tool_instance_from_data failEnv
      { name := "no_such_tool", tool_type := "builtin", config := none, agent_id := none } =
      none ∧
    create_tool_instance_from_data failEnv
      { name := "CALCULATOR", tool_type := "builtin", config := none, agent_id := none } =
    create_tool_instance_from_data failEnv
      { name := "calculator", tool_type := "builtin", config := none, agent_id := none } :=
  ⟨C7_builtin_lookup.1 failEnv _ (.builtin "calculator") rfl (by decide),
   C7_builtin_lookup.2.1 failEnv _ rfl (by decide),
   C7_builtin_lookup.2.2 failEnv _ _ rfl rfl (by decide)⟩

theorem mcpToolBranch_noCommand (menv : MCPEnv) (config : PyVal)
    (h : specHasCommandAtAnyDepth config = false) :
    mcpToolBranch menv config = none := by
  cases config with
  | dict kvs =>
      have hl := locate_noCommand (.dict kvs) h
      simp [mcpToolBranch, hl, pyGetAttr, truthy]
  | null => rfl
  | bool _ => rfl
  | int _ => rfl
  | float _ => rfl
  | str _ => rfl
  | list _ => rfl

theorem mcpToolBranch_clientError (menv : MCPEnv)
    (hm : ∀ c a e, ∃ msg, menv.startAndList c a e = .error msg)
    (config : PyVal) : mcpToolBranch menv config = none := by
  unfold mcpToolBranch
  cases hg : pyGetAttr config "disabled_tools" (.list []) with
  | error e => simp
  | ok disabled =>
      by_cases ht : truthy (locate_config config).1
      · obtain ⟨msg, hmsg⟩ := hm (locate_config config).1 (locate_config config).2.1
          (locate_config config).2.2.1
        simp [ht, hmsg]
      · simp [ht]

theorem agent_tools_fold_skip (menv : MCPEnv) (td : ToolData)
    (h : create_tool_instance_from_data menv td = none) (pre post : List ToolData)
    (init : List Capability) :
    (pre ++ td :: post).foldl
      (fun acc td2 =>
        match create_tool_instance_from_data menv td2 with
        | some l => acc ++ l
        | none => acc) init =
    (pre ++ post).foldl
      (fun acc td2 =>
        match create_tool_instance_from_data menv td2 with
        | some l => acc ++ l
        | none => acc) init := by
  rw [List.foldl_append, List.foldl_append, List.foldl_cons]
  simp [h]

/-! Claim C4: error isolation of the external-process branch. -/

/-- C4: for every external-process (mcp) tool record, if the parsed
config has no command key at any nesting depth the factory returns
None; if starting the subordinate client or enumerating its capabilities
raises, the exception is caught and the factory returns None rather
than propagating; and a record whose factory result is None contributes
nothing to its agent: the agent is constructed exactly as if the record
were absent, with the remaining capabilities. -/
theorem C4_external_process_failures_isolated :
    (∀ (menv : MCPEnv) (td : ToolData),
        td.tool_type = "mcp" →
        specHasCommandAtAnyDepth (parse_config td.config) = false →
        create_tool_instance_from_data menv td = none) ∧
    (∀ (menv : MCPEnv),
        (∀ c a e, ∃ msg, menv.startAndList c a e = .error msg) →
        ∀ td : ToolData, td.tool_type = "mcp" →
        create_tool_instance_from_data menv td = none) ∧
    (∀ (wenv : WorkflowEnv) (aref : AgentRef) (td : ToolData)
        (pre post : List ToolData),
        create_tool_instance_from_data wenv.mcp td = none →
        create_agent wenv (some (.agentRef { aref with tools := pre ++ td :: post })) =
          create_agent wenv (some (.agentRef { aref with tools := pre ++ post }))) := by
  refine ⟨?_, ?_, ?_⟩
  · intro menv td h hcfg
    simp only [create_tool_instance_from_data, h]
    simpa using mcpToolBranch_noCommand menv (parse_config td.config) hcfg
  · intro menv hm td h
    simp only [create_tool_instance_from_data, h]
    simpa using mcpToolBranch_clientError menv hm (parse_config td.config)
  · intro wenv aref td pre post h
    simp only [create_agent]
    rw [agent_tools_fold_skip wenv.mcp td h]

/-! Claim C6: which disabled list filters the reported capabilities. -/

theorem filterDisabledAux_list (ds : List PyVal) :
    ∀ names : List String,
      filterDisabledAux names (.list ds) =
        .ok (names.filter (fun n => !(ds.any (fun e2 => pyEq (.str n) e2))))
  | [] => rfl
  | n :: rest => by
      simp only [filterDisabledAux, pyMem, filterDisabledAux_list ds rest]
      cases h : ds.any (fun e2 => pyEq (.str n) e2) <;> simp [List.filter_cons, h]

/-- C6 (amended): for an external-process record whose client starts
successfully, the returned capability list is the client's reported list
filtered by the disabled_tools entry of the root of the parsed config
(all names kept when that key is absent); the disabled-capability-names
component returned by the locate-launch-parameters helper is discarded
by the factory. -/
theorem C6_disabled_from_root (menv : MCPEnv) (td : ToolData)
    (kvs : List (String × PyVal)) (names : List String)
    (htype : td.tool_type = "mcp")
    (hcfg : parse_config td.config = .dict kvs)
    (hcmd : truthy (locate_config (.dict kvs)).1 = true)
    (hclient : menv.startAndList (locate_config (.dict kvs)).1
        (locate_config (.dict kvs)).2.1 (locate_config (.dict kvs)).2.2.1 = .ok names) :
    (∀ ds : List PyVal, dictGet kvs "disabled_tools" = some (.list ds) →
        create_tool_instance_from_data menv td =
          some ((names.filter
            (fun n => !(ds.any (fun e2 => pyEq (.str n) e2)))).map Capability.mcpTool)) ∧
    (dictGet kvs "disabled_tools" = none →
        create_tool_instance_from_data menv td =
          some (names.map Capability.mcpTool)) := by
  have hred : create_tool_instance_from_data menv td = mcpToolBranch menv (.dict kvs) := by
    simp [create_tool_instance_from_data, htype, hcfg]
  constructor
  · intro ds hds
    rw [hred]
    simp only [mcpToolBranch, pyGetAttr, hds, Option.getD_some, hcmd, hclient]
    cases hd : ds.isEmpty with
    | true =>
        have hde : ds = [] := List.isEmpty_iff.mp hd
        subst hde
        simp [truthy]
    | false =>
        cases hn : names.isEmpty with
        | true =>
            have hne : names = [] := List.isEmpty_iff.mp hn
            subst hne
            simp [truthy, filterDisabledAux]
        | false =>
            simp [truthy, hd, hn, filterDisabledAux_list ds names]
  · intro hnone
    rw [hred]
    simp [mcpToolBranch, pyGetAttr, hnone, hcmd, hclient, truthy]
    exact hcmd

def mcpEnvT12 : MCPEnv := ⟨fun _ _ _ => .ok ["t1", "t2"]⟩

def tdNested : ToolData :=
  { name := "srv", tool_type := "mcp",
    config := some "\x7b\"mcpServers\": \x7b\"s\": \x7b\"command\": \"run\", \"disabled_tools\": [\"t1\"]\x7d\x7d\x7d",
    agent_id := none }

/-- C6 counterexample: with a config whose disabled list sits next to
the nested command (so the locate helper returns it), the factory still
returns both reported tools: the list located together with the launch
parameters is not the one used for filtering, refuting the claim, which
predicts that t1 is removed. -/
theorem C6_counterexample :
    (locate_config (parse_config tdNested.config)).2.2.2 = .list [.str "t1"] ∧
    create_tool_instance_from_data mcpEnvT12 tdNested =
      some [.mcpTool "t1", .mcpTool "t2"] := ⟨by decide, by decide⟩

def tdRoot : ToolData :=
  { name := "srv2", tool_type := "mcp",
    config := some "\x7b\"command\": \"run\", \"disabled_tools\": [\"t1\"]\x7d",
    agent_id := none }

/-- C6 witness: with the disabled list at the root of the config, the
reported tool t1 is filtered out. -/
theorem C6_disabled_from_root_witness :
    create_tool_instance_from_data mcpEnvT12 tdRoot = some [.mcpTool "t2"] :=
  ((C6_disabled_from_root mcpEnvT12 tdRoot
      [("command", .str "run"), ("disabled_tools", .list [.str "t1"])] ["t1", "t2"]
      rfl (by decide) (by decide) rfl).1 [.str "t1"] (by decide)).trans (by decide)

def wenvFail : WorkflowEnv := ⟨failEnv, fun s => s⟩

def tdNoCmd : ToolData :=
  { name := "srv", tool_type := "mcp", config := some "\x7b\x7d", agent_id := none }

def tdCmd : ToolData :=
  { name := "srv3", tool_type := "mcp", config := some "\x7b\"command\": \"run\"\x7d",
    agent_id := none }

def arefT : AgentRef :=
  { name := "Ag", prompt := "P", description := some "", model_id := none, tools := [] }

/-- C4 witness: a record with config holding no command key yields None,
a record with a command but an always-raising client yields None, and
the agent built with the failing record equals the agent built without
it. -/
theorem C4_external_process_failures_isolated_witness :
    create_tool_instance_from_data failEnv tdNoCmd = none ∧
    create_tool_instance_from_data failEnv tdCmd = none ∧
    create_agent wenvFail (some (.agentRef { arefT with tools := [tdNoCmd] })) =
      create_agent wenvFail (some (.agentRef { arefT with tools := [] })) :=
  ⟨C4_external_process_failures_isolated.1 failEnv tdNoCmd rfl (by decide),
   C4_external_process_failures_isolated.2.1 failEnv
     (fun _ _ _ => ⟨"client failed", rfl⟩) tdCmd rfl,
   C4_external_process_failures_isolated.2.2 wenvFail arefT tdNoCmd [] []
     (C4_external_process_failures_isolated.1 failEnv tdNoCmd rfl (by decide))⟩

/-! Claim C2: the single-agent orchestrator bypass. -/

/-- C2 (amended): the bypass is decided by the number of live agents
produced by node materialization, not by the node and edge counts of the
graph: when exactly one live agent exists it is used directly as the
orchestrator (regardless of the edges), when more than one exists the
synthesized orchestrator is used, and an agent built from an agent
record carries that record's instruction text verbatim as its system
prompt. -/
theorem C2_single_live_agent_bypass :
    (∀ (wenv : WorkflowEnv) (ctx : WorkflowContext) (a : StrandsAgentV)
        (tools : List (List Capability)),
        create_nodes wenv ctx.nodes = .ok ([a], tools) →
        processing_setup wenv ctx = (.ok a, ["_Q_E_E_STARTED"])) ∧
    (∀ (wenv : WorkflowEnv) (ctx : WorkflowContext) (agents : List StrandsAgentV)
        (tools : List (List Capability)),
        create_nodes wenv ctx.nodes = .ok (agents, tools) → agents.length > 1 →
        processing_setup wenv ctx =
          (.ok (create_orchestrator wenv ctx agents tools), ["_Q_E_E_STARTED"])) ∧
    (∀ (wenv : WorkflowEnv) (aref : AgentRef) (ag : StrandsAgentV),
        create_agent wenv (some (.agentRef aref)) = some ag →
        ag.system_prompt = aref.prompt) := by
  refine ⟨?_, ?_, ?_⟩
  · intro wenv ctx a tools h
    simp [processing_setup, h]
  · intro wenv ctx agents tools h hlen
    simp only [processing_setup, h]
    rw [if_pos hlen]
  · intro wenv aref ag h
    simp only [create_agent, Option.some.injEq] at h
    rw [← h]

def ctxC2 : WorkflowContext :=
  { id := "g", name := "G", description := "dg", model_id := none,
    nodes := [("i", { id := "i", type := "input", reference := none }),
              ("a", { id := "a", type := "agent", reference := some (.agentRef arefA) }),
              ("o", { id := "o", type := "output", reference := none })],
    edges := [("i", "a"), ("a", "o")] }

/-- C2 counterexample: a graph with one agent node and two edges
(input to agent, agent to output) still bypasses orchestrator synthesis:
the resulting orchestrator is the agent itself with its own instruction
text PA as system prompt, although the graph has edges, refuting the
claim that the bypass happens only for a one-agent-node graph with no
edges. -/
theorem C2_counterexample :
    ctxC2.edges ≠ [] ∧
    processing_setup wenvFail ctxC2 =
      (.ok { model := none, system_prompt := "PA", tools := [],
             agent_name := some "A", agent_description := some "" },
       ["_Q_E_E_STARTED"]) ∧
    generate_workflow_prompt ctxC2 ≠ "PA" := ⟨by decide, by decide, by decide⟩

def ctxC2single : WorkflowContext :=
  { id := "g2", name := "G2", description := "d2", model_id := none,
    nodes := [("a", { id := "a", type := "agent", reference := some (.agentRef arefA) })],
    edges := [] }

def agentAV : StrandsAgentV :=
  { model := none, system_prompt := "PA", tools := [], agent_name := some "A",
    agent_description := some "" }

/-- C2 witness: on a one-agent-node graph with no edges, the bypass
produces the agent itself with its instruction text as prompt. -/
theorem C2_single_live_agent_bypass_witness :
    create_nodes wenvFail ctxC2single.nodes = .ok ([agentAV], []) ∧
    processing_setup wenvFail ctxC2single = (.ok agentAV, ["_Q_E_E_STARTED"]) ∧
    agentAV.system_prompt = arefA.prompt :=
  ⟨by decide,
   C2_single_live_agent_bypass.1 wenvFail ctxC2single agentAV [] (by decide),
   C2_single_live_agent_bypass.2.2 wenvFail arefA agentAV (by decide)⟩

/-! Claim C10: startup with an empty list of live agents. -/

theorem create_nodes_loop_no_agent_nodes (wenv : WorkflowEnv) :
    ∀ (nodes : List (String × NodeData)) (acc : List StrandsAgentV)
      (tl : List (List Capability)) (agents : List StrandsAgentV)
      (tls : List (List Capability)),
      (∀ p ∈ nodes, p.2.type ≠ "agent") →
      create_nodes_loop wenv nodes acc tl = .ok (agents, tls) → agents = acc
  | [], acc, tl, agents, tls, _, h => by
      simp [create_nodes_loop] at h
      exact h.1.symm
  | (k, nd) :: rest, acc, tl, agents, tls, hna, h => by
      have hnd : nd.type ≠ "agent" := hna (k, nd) (List.mem_cons_self _ _)
      have hbeq : (nd.type == "agent") = false := by simpa using hnd
      have hrest : ∀ p ∈ rest, p.2.type ≠ "agent" :=
        fun p hp => hna p (List.mem_cons_of_mem _ hp)
      simp only [create_nodes_loop, hbeq, Bool.false_eq_true, if_false] at h
      cases htt : (nd.type == "tool") with
      | false =>
          rw [htt] at h
          simp only [Bool.false_eq_true, if_false] at h
          exact create_nodes_loop_no_agent_nodes wenv rest acc tl agents tls hrest h
      | true =>
          rw [htt] at h
          simp only [if_true] at h
          cases hct : create_tool wenv.mcp nd with
          | error e => rw [hct] at h; exact absurd h (by simp)
          | ok o =>
              rw [hct] at h
              cases o with
              | none =>
                  exact create_nodes_loop_no_agent_nodes wenv rest acc tl agents tls hrest h
              | some l =>
                  have h2 : (if (!l.isEmpty) = true then
                      create_nodes_loop wenv rest acc (tl ++ [l])
                    else create_nodes_loop wenv rest acc tl) = Except.ok (agents, tls) := h
                  cases hl : l.isEmpty with
                  | true =>
                      rw [hl] at h2
                      simp only [Bool.not_true, Bool.false_eq_true, if_false] at h2
                      exact create_nodes_loop_no_agent_nodes wenv rest acc tl agents tls hrest h2
                  | false =>
                      rw [hl] at h2
                      simp only [Bool.not_false, if_true] at h2
                      exact create_nodes_loop_no_agent_nodes wenv rest acc (tl ++ [l])
                        agents tls hrest h2

/-- C10: when node materialization yields an empty list of live agents,
the setup phase of the worker raises an unhandled IndexError
dereferencing the first element of the empty agents list, and the
STARTED sentinel is never put on the output channel; a graph whose nodes
are all of kind tool, input or output yields an empty live-agent list
whenever materialization returns. -/
theorem C10_empty_agents_blocks_startup :
    (∀ (wenv : WorkflowEnv) (ctx : WorkflowContext) (tools : List (List Capability)),
        create_nodes wenv ctx.nodes = .ok ([], tools) →
        processing_setup wenv ctx = (.error "IndexError: list index out of range", []) ∧
        "_Q_E_E_STARTED" ∉ (processing_setup wenv ctx).2) ∧
    (∀ (wenv : WorkflowEnv) (nodes : List (String × NodeData))
        (agents : List StrandsAgentV) (tools : List (List Capability)),
        (∀ p ∈ nodes, p.2.type ≠ "agent") →
        create_nodes wenv nodes = .ok (agents, tools) → agents = []) := by
  constructor
  · intro wenv ctx tools h
    have h2 : processing_setup wenv ctx =
        (.error "IndexError: list index out of range", []) := by
      simp [processing_setup, h]
    exact ⟨h2, by rw [h2]; simp⟩
  · intro wenv nodes agents tools hna h
    exact create_nodes_loop_no_agent_nodes wenv nodes [] [] agents tools hna h

def ctxC10 : WorkflowContext :=
  { id := "g3", name := "G3", description := "d3", model_id := none,
    nodes := [("i", { id := "i", type := "input", reference := none }),
              ("o", { id := "o", type := "output", reference := none })],
    edges := [("i", "o")] }

/-- C10 witness: a graph holding only an input node and an output node
raises IndexError during setup and emits no STARTED sentinel. -/
theorem C10_empty_agents_blocks_startup_witness :
    processing_setup wenvFail ctxC10 =
      (.error "IndexError: list index out of range", []) ∧
    "_Q_E_E_STARTED" ∉ (processing_setup wenvFail ctxC10).2 :=
  C10_empty_agents_blocks_startup.1 wenvFail ctxC10 [] (by decide)

/-! Claims C8 and C9: the worker receive loop. -/

theorem data_frame_ne_answered (d : String) :
    ("data: " ++ d ++ "\nend") = "_Q_E_E_ANSWERED" → False := by
  intro h
  have h1 : ("data: " ++ d ++ "\nend").data.head? = some 'd' := rfl
  rw [h] at h1
  exact absurd h1 (by decide)

/-- C8: for every ordinary text message (anything other than the
TERMINATE and RETRIEVE sentinels) received by a ready worker, the worker
appends a user-role entry holding the message, invokes the orchestrator,
appends exactly one assistant-role entry holding the full response text,
and emits exactly one ANSWERED sentinel on the output channel after all
streamed data fragments of the turn. -/
theorem C8_ordinary_message_turn (penv : ProcEnv) (st : WorkerState) (m : String)
    (h1 : m ≠ "_Q_E_E_TERMINATE") (h2 : m ≠ "_Q_E_E_RETRIEVE") :
    (worker_step penv st m).1 = some
      { st with history := st.history ++
          [{ role := "user", content := m, timestamp := penv.timeUser },
           { role := "assistant", content := (penv.invoke m).2,
             timestamp := penv.timeAssistant }] } ∧
    (worker_step penv st m).2 =
      (penv.invoke m).1.map (fun d => "data: " ++ d ++ "\nend") ++ ["_Q_E_E_ANSWERED"] ∧
    ((worker_step penv st m).2).count "_Q_E_E_ANSWERED" = 1 := by
  have hb1 : (m == "_Q_E_E_TERMINATE") = false := by simpa using h1
  have hb2 : (m == "_Q_E_E_RETRIEVE") = false := by simpa using h2
  refine ⟨?_, ?_, ?_⟩
  · simp [worker_step, hb1, hb2, List.append_assoc]
  · simp [worker_step, hb1, hb2]
  · simp only [worker_step, hb1, hb2, Bool.false_eq_true, if_false]
    rw [List.count_append]
    have hz : ((penv.invoke m).1.map (fun d => "data: " ++ d ++ "\nend")).count
        "_Q_E_E_ANSWERED" = 0 := by
      rw [List.count_eq_zero]
      intro hmem
      obtain ⟨d, hd, hdeq⟩ := List.mem_map.mp hmem
      exact data_frame_ne_answered d hdeq
    rw [hz]
    rfl

def agentDummy : StrandsAgentV :=
  { model := none, system_prompt := "S", tools := [], agent_name := none,
    agent_description := none }

def penvW : ProcEnv := ⟨fun _ => (["one"], "answer"), "t1", "t2"⟩

/-- C8 witness: the message hello on a fresh worker whose orchestrator
streams one fragment and answers. -/
theorem C8_ordinary_message_turn_witness :
    (worker_step penvW ⟨agentDummy, []⟩ "hello").1 =
      some ⟨agentDummy, [⟨"user", "hello", "t1"⟩, ⟨"assistant", "answer", "t2"⟩]⟩ ∧
    (worker_step penvW ⟨agentDummy, []⟩ "hello").2 =
      ["data: one\nend", "_Q_E_E_ANSWERED"] ∧
    ((worker_step penvW ⟨agentDummy, []⟩ "hello").2).count "_Q_E_E_ANSWERED" = 1 := by
  have h := C8_ordinary_message_turn penvW ⟨agentDummy, []⟩ "hello" (by decide) (by decide)
  exact ⟨h.1.trans (by decide), h.2.1.trans (by decide), h.2.2⟩

/-- C9: the RETRIEVE sentinel makes the worker emit exactly one
HISTORY-prefixed message whose payload is the serialization of the
current conversation history, with the worker state unchanged and the
orchestrator not invoked (the result holds for every orchestrator
oracle); before any ordinary message the payload is the empty list. -/
theorem C9_retrieve_reports_history (penv : ProcEnv) (st : WorkerState) :
    worker_step penv st "_Q_E_E_RETRIEVE" =
      (some st, ["_Q_E_E_HISTORY" ++ serializeHistory st.history]) ∧
    (st.history = [] →
      worker_step penv st "_Q_E_E_RETRIEVE" = (some st, ["_Q_E_E_HISTORY[]"])) := by
  constructor
  · simp [worker_step]
  · intro h
    simp [worker_step, h, serializeHistory, joinSep]

/-- C9 witness: RETRIEVE on a fresh worker returns the HISTORY marker
with an empty list payload and leaves the state unchanged. -/
theorem C9_retrieve_reports_history_witness :
    worker_step penvW ⟨agentDummy, []⟩ "_Q_E_E_RETRIEVE" =
      (some ⟨agentDummy, []⟩, ["_Q_E_E_HISTORY[]"]) :=
  (C9_retrieve_reports_history penvW ⟨agentDummy, []⟩).2 rfl
